import Mathlib

/-!
Verification of the fantasy-analyst single-file application (src/app.py).

The app is a linear pipeline: fetch an NFL roster over HTTP, filter it to
active WR/TE players and render selection labels, resolve season statistics
for the selected labels, compose an LLM prompt, and render the response.

We shallow-embed the pipeline's data manipulation in Lean:
* JSON player records become structures with `Option String` fields, since
  the Python code accesses every field with `dict.get` (yielding `None` when
  the field is missing) and Python renders `None` as the string "None"
  inside an f-string.
* Each HTTP interaction becomes an explicit outcome value (success with the
  parsed body, an HTTP error carrying status code and URL, or a transport
  error), and the functions that in Python catch `requests` exceptions
  become total functions from that outcome type, returning the computed
  value together with the list of user-visible error messages emitted via
  `st.error`.
* The Python `list.sort()` on strings (lexicographic by code point, stable)
  is embedded as `List.insertionSort strLe`, where `strLe` is the code-point
  lexicographic order: sortedness plus permutation under this antisymmetric
  order determines the result uniquely, so this is extensionally the same
  function.
* The Python `dict` built by `get_player_stats` is embedded as an
  association list with insertion-order-preserving, value-overwriting
  insertion, matching CPython dict semantics.
-/

/-- A roster entry as returned by the Players endpoint.  Only the four fields
the code reads are modelled; each is optional because the code reads them
with `dict.get`. -/
structure PlayerRec where
  Name : Option String
  Team : Option String
  Position : Option String
  Status : Option String
deriving DecidableEq

/-- Python renders `None` as "None" inside an f-string; a present string
renders as itself. -/
def optStr : Option String → String
  | none => "None"
  | some s => s

/-- Lexicographic code-point comparison of character lists: this is exactly
how Python compares two `str` values (shorter prefix first, otherwise first
differing code point decides).  Written as a structural Boolean function so
that concrete sorts evaluate inside the kernel. -/
def charListLe : List Char → List Char → Bool
  | [], _ => true
  | _ :: _, [] => false
  | a :: as, b :: bs =>
    if a.toNat < b.toNat then true
    else if b.toNat < a.toNat then false
    else charListLe as bs

/-- The Python string order `a <= b` used by `list.sort()` on strings. -/
def strLe (a b : String) : Prop := charListLe a.data b.data = true

instance : DecidableRel strLe :=
  fun a b => inferInstanceAs (Decidable (charListLe a.data b.data = true))

/-- Code-point lexicographic comparison is total. -/
theorem charListLe_total (as : List Char) : ∀ bs, charListLe as bs = true ∨ charListLe bs as = true := by
  induction as with
  | nil => intro bs; left; rfl
  | cons a as ih =>
    intro bs
    cases bs with
    | nil => right; rfl
    | cons b bs =>
      rcases Nat.lt_trichotomy a.toNat b.toNat with h | h | h
      · left; simp [charListLe, h]
      · rcases ih bs with h2 | h2
        · left; simp [charListLe, h, h2]
        · right; simp [charListLe, h.symm, h2]
      · right; simp [charListLe, h]

/-- Code-point lexicographic comparison is transitive. -/
theorem charListLe_trans (as : List Char) :
    ∀ bs cs, charListLe as bs = true → charListLe bs cs = true → charListLe as cs = true := by
  induction as with
  | nil => intro bs cs _ _; rfl
  | cons a as ih =>
    intro bs cs h1 h2
    cases bs with
    | nil => exact absurd h1 (by simp [charListLe])
    | cons b bs =>
      cases cs with
      | nil => exact absurd h2 (by simp [charListLe])
      | cons c cs =>
        simp only [charListLe] at h1 h2 ⊢
        split_ifs at h1 h2 ⊢ <;>
          first
            | rfl
            | exact absurd h1 (by decide)
            | exact absurd h2 (by decide)
            | (exfalso; omega)
            | exact ih bs cs h1 h2

instance : IsTotal String strLe := ⟨fun a b => charListLe_total a.data b.data⟩

instance : IsTrans String strLe := ⟨fun a b c => charListLe_trans a.data b.data c.data⟩

/-- The selection label built by the list comprehension in `get_player_list`:
`f'{player.get("Name")} ({player.get("Team")})'`. -/
def playerLabel (player : PlayerRec) : String :=
  optStr player.Name ++ " (" ++ optStr player.Team ++ ")"

/-- The list-comprehension guard in `get_player_list`:
`player.get("Position") in ["WR", "TE"] and player.get("Status") == "Active"`. -/
def isWrTeActive (player : PlayerRec) : Bool :=
  (player.Position == some "WR" || player.Position == some "TE")
    && player.Status == some "Active"

/-- The `wr_te_players` list comprehension in `get_player_list`, before the
`sort()` call: labels of the records passing the guard, in roster order. -/
def wr_te_players (player_data : List PlayerRec) : List String :=
  (player_data.filter isWrTeActive).map playerLabel

/-- The value `get_player_list` returns on a successful fetch:
`wr_te_players` after the in-place `wr_te_players.sort()`. -/
def get_player_list_ok (player_data : List PlayerRec) : List String :=
  List.insertionSort strLe (wr_te_players player_data)

/-- Outcome of the roster HTTP request in `get_player_list`.  `ok` is a 2xx
response with parsed JSON body; `httpErr` is a `RequestException` whose
`e.response is not None` (as raised by `raise_for_status`), carrying the
status code and request URL; `netErr` is a `RequestException` with no
response attached. -/
inductive RosterFetchOutcome where
  | ok (player_data : List PlayerRec)
  | httpErr (statusCode : Nat) (url : String)
  | netErr (msg : String)
deriving DecidableEq

/-- The whole of `get_player_list`: on success the sorted filtered labels and
no error message; on a `RequestException` the empty list together with the
`st.error` message the handler formats (status code and URL when a response
exists, a generic network error otherwise). -/
def get_player_list : RosterFetchOutcome → List String × List String
  | .ok player_data => (get_player_list_ok player_data, [])
  | .httpErr statusCode url =>
      ([], ["HTTP Error: Status Code " ++ toString statusCode ++ " - URL: " ++ url])
  | .netErr msg => ([], ["Network Error: " ++ msg])

/-- A defective record whose Position (or Status) is missing fails the
comprehension guard, so the filter drops it. -/
theorem isWrTeActive_false_of_missing (player : PlayerRec)
    (h : player.Position = none ∨ player.Status = none) :
    isWrTeActive player = false := by
  unfold isWrTeActive
  rcases h with h | h <;> rw [h] <;> simp

/-- Claim C5. For every roster, the filter outputs the labels of exactly
those records whose position is WR or TE and whose status is Active (as a
permutation of the label list of the filtered roster, so with the exact
multiplicities), and the output is sorted in ascending lexicographic order
of the label string. -/
theorem get_player_list_filter_and_sort (roster : List PlayerRec) :
    (get_player_list_ok roster).Perm ((roster.filter isWrTeActive).map playerLabel) ∧
    (get_player_list_ok roster).Sorted strLe :=
  ⟨List.perm_insertionSort _ _, List.sorted_insertionSort _ _⟩

/-- Claim C1, counterexample to "contains no duplicate labels": two distinct
records (an active WR and an active TE) sharing name "A" and team "X" both
pass the filter and both render as "A (X)", so the output has a duplicate
label. -/
theorem get_player_list_duplicate_labels :
    get_player_list_ok
      [⟨some "A", some "X", some "WR", some "Active"⟩,
       ⟨some "A", some "X", some "TE", some "Active"⟩] = ["A (X)", "A (X)"] ∧
    ¬ (get_player_list_ok
      [⟨some "A", some "X", some "WR", some "Active"⟩,
       ⟨some "A", some "X", some "TE", some "Active"⟩]).Nodup := by
  decide

/-- Claim C1 as amended: for every roster, every label in the filter's output
is the label of some roster record that passes the filter (is active with
position WR or TE) — but the output can contain duplicate labels when
distinct qualifying records share name and team. -/
theorem get_player_list_labels_sound (roster : List PlayerRec) (l : String)
    (hl : l ∈ get_player_list_ok roster) :
    ∃ player ∈ roster, isWrTeActive player = true ∧ playerLabel player = l := by
  unfold get_player_list_ok at hl
  rw [List.mem_insertionSort] at hl
  obtain ⟨p, hp, hlab⟩ := List.mem_map.mp hl
  obtain ⟨hmem, hpred⟩ := List.mem_filter.mp hp
  exact ⟨p, hmem, hpred, hlab⟩

/-- Witness for `get_player_list_labels_sound` at a concrete roster. -/
theorem get_player_list_labels_sound_witness :
    ∃ player ∈ [(⟨some "A", some "X", some "WR", some "Active"⟩ : PlayerRec)],
      isWrTeActive player = true ∧ playerLabel player = "A (X)" :=
  get_player_list_labels_sound
    [⟨some "A", some "X", some "WR", some "Active"⟩] "A (X)" (by decide)

/-- Claim C3, counterexample: a record with Name and Team both missing but
Position "WR" and Status "Active" is not skipped — it contributes the label
"None (None)" to the output, contradicting "the defective record contributes
no label". -/
theorem get_player_list_missing_name_not_skipped :
    get_player_list_ok [⟨none, none, some "WR", some "Active"⟩] = ["None (None)"] := by
  decide

/-- Claim C3 as amended: the roster fetch never fails because of a defective
record.  A record whose Position or Status field is missing is skipped (the
output is that of the remaining records), but a record that passes the
position/status guard still contributes its label even when its Name or Team
is missing — the missing field renders as "None". -/
theorem get_player_list_defective_record (roster : List PlayerRec) (player : PlayerRec) :
    ((player.Position = none ∨ player.Status = none) →
        get_player_list_ok (player :: roster) = get_player_list_ok roster) ∧
    (isWrTeActive player = true →
        playerLabel player ∈ get_player_list_ok (player :: roster)) := by
  constructor
  · intro h
    have hpred := isWrTeActive_false_of_missing player h
    simp [get_player_list_ok, wr_te_players, List.filter_cons, hpred]
  · intro h
    unfold get_player_list_ok
    rw [List.mem_insertionSort]
    exact List.mem_map_of_mem _ (List.mem_filter.mpr ⟨List.mem_cons_self _ _, h⟩)

/-- Witness for `get_player_list_defective_record`: a record missing its
Position is skipped, and a complete active WR record contributes its label. -/
theorem get_player_list_defective_record_witness :
    (get_player_list_ok
        [⟨some "B", some "Y", none, some "Active"⟩,
         ⟨some "A", some "X", some "WR", some "Active"⟩]
      = get_player_list_ok [⟨some "A", some "X", some "WR", some "Active"⟩]) ∧
    playerLabel ⟨some "A", some "X", some "WR", some "Active"⟩ ∈
      get_player_list_ok [⟨some "A", some "X", some "WR", some "Active"⟩] :=
  ⟨(get_player_list_defective_record
      [⟨some "A", some "X", some "WR", some "Active"⟩]
      ⟨some "B", some "Y", none, some "Active"⟩).1 (Or.inl rfl),
   (get_player_list_defective_record []
      ⟨some "A", some "X", some "WR", some "Active"⟩).2 (by decide)⟩

/-- Claim C4. For the concrete roster
`[{name:"A", team:"X", position:"WR", status:"Active"},
  {name:"B", team:"Y", position:"QB", status:"Active"}]`,
the roster filter's output is exactly the one-element list `["A (X)"]`: the
QB record fails the position guard and the remaining WR record renders as
"A (X)". -/
theorem get_player_list_concrete_roster :
    get_player_list_ok
      [⟨some "A", some "X", some "WR", some "Active"⟩,
       ⟨some "B", some "Y", some "QB", some "Active"⟩] = ["A (X)"] := by
  decide

/-- A season-statistics record from the PlayerSeasonStats endpoint.  The
code reads only the `Name` field (with `dict.get`); the remaining JSON
fields are carried as an opaque payload so that distinct records with the
same name stay distinguishable. -/
structure StatRecord where
  Name : Option String
  otherFields : List (String × String)
deriving DecidableEq

/-- Character-level translation of `player_name.split(' (')[0]`: everything
before the first occurrence of the two-character separator " (", or the
whole string when the separator does not occur. -/
def splitPrefixChars : List Char → List Char
  | [] => []
  | ' ' :: '(' :: _ => []
  | c :: rest => c :: splitPrefixChars rest

/-- The `name_only` variable in `get_player_stats`:
`player_name.split(' (')[0]`. -/
def name_only (player_name : String) : String :=
  ⟨splitPrefixChars player_name.data⟩

/-- CPython dict assignment `d[k] = v`: replace the value in place when the
key is present (keeping its position), otherwise append the new binding. -/
def dictInsert : List (String × StatRecord) → String → StatRecord → List (String × StatRecord)
  | [], k, v => [(k, v)]
  | (k0, v0) :: rest, k, v =>
    if k0 = k then (k0, v) :: rest else (k0, v0) :: dictInsert rest k v

/-- One iteration of the `for player_name in player_names` loop in
`get_player_stats`: compute `name_only`, look up the first record of
`all_stats_data` whose `Name` equals it (`next(...)` with default `None`),
and store it in the dict when found. -/
def stepStats (all_stats_data : List StatRecord) (acc : List (String × StatRecord))
    (player_name : String) : List (String × StatRecord) :=
  match all_stats_data.find? (fun p => p.Name == some (name_only player_name)) with
  | some stats => dictInsert acc (name_only player_name) stats
  | none => acc

/-- The loop of `get_player_stats` on a successfully fetched statistics
list: the dict built by iterating `stepStats` over the selected names,
starting from the empty dict. -/
def get_player_stats_pure (player_names : List String) (all_stats_data : List StatRecord) :
    List (String × StatRecord) :=
  player_names.foldl (stepStats all_stats_data) []

/-- Outcome of the single bulk PlayerSeasonStats HTTP request in
`get_player_stats`: either a 2xx response with the parsed JSON list, or a
`requests.exceptions.RequestException` (which includes the `HTTPError`
raised by `raise_for_status` on a non-2xx response). -/
inductive StatsFetchOutcome where
  | ok (all_stats_data : List StatRecord)
  | err (msg : String)
deriving DecidableEq

/-- The whole of `get_player_stats`: an empty selection short-circuits to the
empty dict before any request; otherwise on success the resolver loop runs
with no error message, and on a request failure the handler emits its
`st.error` message and returns the empty dict. -/
def get_player_stats (player_names : List String) (outcome : StatsFetchOutcome) :
    List (String × StatRecord) × List String :=
  if player_names.isEmpty then ([], [])
  else
    match outcome with
    | .ok all_stats_data => (get_player_stats_pure player_names all_stats_data, [])
    | .err msg => ([], ["Error fetching stats for players: " ++ msg])

/-- Claim C2, counterexample to "exactly one error entry": with selection
["A (X)", "B (Y)"] where only "A" resolves against the fetched statistics,
the bundle is the single success entry for "A"; the unresolvable "B (Y)"
is silently omitted — there is no entry (and in particular no error entry)
for it. -/
theorem get_player_stats_no_error_entry :
    get_player_stats_pure ["A (X)", "B (Y)"] [⟨some "A", []⟩]
      = [("A", ⟨some "A", []⟩)] ∧
    "B" ∉ (get_player_stats_pure ["A (X)", "B (Y)"] [⟨some "A", []⟩]).map Prod.fst ∧
    "B (Y)" ∉ (get_player_stats_pure ["A (X)", "B (Y)"] [⟨some "A", []⟩]).map Prod.fst := by
  decide

/-- Claim C2 as amended: for every selection of exactly one resolvable and
one unresolvable name, the resolver returns (it is a total function, so it
never raises) a bundle containing exactly the one success entry for the
resolvable name; the unresolvable name is silently omitted rather than
marked with an error entry. -/
theorem get_player_stats_one_success_omits_unresolvable
    (a b : String) (all_stats_data : List StatRecord) (r : StatRecord)
    (ha : all_stats_data.find? (fun p => p.Name == some (name_only a)) = some r)
    (hb : all_stats_data.find? (fun p => p.Name == some (name_only b)) = none) :
    get_player_stats_pure [a, b] all_stats_data = [(name_only a, r)] := by
  simp [get_player_stats_pure, stepStats, ha, hb, dictInsert]

/-- Witness for `get_player_stats_one_success_omits_unresolvable` at a
concrete selection and statistics list. -/
theorem get_player_stats_one_success_omits_unresolvable_witness :
    get_player_stats_pure ["A (X)", "B (Y)"] [⟨some "A", [("Team", "X")]⟩]
      = [("A", ⟨some "A", [("Team", "X")]⟩)] :=
  get_player_stats_one_success_omits_unresolvable "A (X)" "B (Y)"
    [⟨some "A", [("Team", "X")]⟩] ⟨some "A", [("Team", "X")]⟩ (by decide) (by decide)

/-- Membership in a dict after assignment: an entry is either the new binding
or one of the existing entries. -/
theorem mem_dictInsert {k : String} {v : StatRecord} :
    ∀ {m : List (String × StatRecord)} {kv : String × StatRecord},
      kv ∈ dictInsert m k v → kv = (k, v) ∨ kv ∈ m := by
  intro m
  induction m with
  | nil => intro kv h; simpa [dictInsert] using h
  | cons hd tl ih =>
    intro kv h
    obtain ⟨k0, v0⟩ := hd
    by_cases hk : k0 = k
    · simp [dictInsert, hk] at h
      rcases h with h | h
      · exact Or.inl h
      · exact Or.inr (List.mem_cons_of_mem _ h)
    · simp [dictInsert, hk] at h
      rcases h with h | h
      · exact Or.inr (by rw [h]; exact List.mem_cons_self _ _)
      · rcases ih h with h | h
        · exact Or.inl h
        · exact Or.inr (List.mem_cons_of_mem _ h)

/-- A key present after a dict assignment was present before or is the
assigned key. -/
theorem mem_keys_dictInsert {m : List (String × StatRecord)} {k : String} {v : StatRecord}
    {a : String} (h : a ∈ (dictInsert m k v).map Prod.fst) :
    a ∈ m.map Prod.fst ∨ a = k := by
  rcases List.mem_map.mp h with ⟨kv, hkv, hfst⟩
  rcases mem_dictInsert hkv with h1 | h1
  · right; rw [← hfst, h1]
  · left; exact hfst ▸ List.mem_map_of_mem _ h1

/-- Dict assignment preserves key uniqueness. -/
theorem nodup_keys_dictInsert {k : String} {v : StatRecord} :
    ∀ {m : List (String × StatRecord)},
      (m.map Prod.fst).Nodup → ((dictInsert m k v).map Prod.fst).Nodup := by
  intro m
  induction m with
  | nil => intro _; simp [dictInsert]
  | cons hd tl ih =>
    intro h
    obtain ⟨k0, v0⟩ := hd
    rw [List.map_cons, List.nodup_cons] at h
    by_cases hk : k0 = k
    · subst hk
      simpa [dictInsert, List.nodup_cons] using h
    · simp only [dictInsert, List.map_cons]
      rw [if_neg hk, List.map_cons, List.nodup_cons]
      refine ⟨fun hmem => ?_, ih h.2⟩
      rcases mem_keys_dictInsert hmem with hm | hm
      · exact h.1 hm
      · exact hk hm

/-- Invariant of the `get_player_stats` resolver loop: starting from a dict
whose keys are distinct bare names coming from the full selection and whose
values are first matches, the loop preserves those properties. -/
theorem get_player_stats_fold_inv (all_stats_data : List StatRecord) (full : List String) :
    ∀ (names : List String) (acc : List (String × StatRecord)),
      (∀ nm ∈ names, nm ∈ full) →
      (acc.map Prod.fst).Nodup →
      (∀ kv ∈ acc, (∃ nm ∈ full, kv.1 = name_only nm) ∧
        all_stats_data.find? (fun p => p.Name == some kv.1) = some kv.2) →
      ((names.foldl (stepStats all_stats_data) acc).map Prod.fst).Nodup ∧
      ∀ kv ∈ names.foldl (stepStats all_stats_data) acc,
        (∃ nm ∈ full, kv.1 = name_only nm) ∧
        all_stats_data.find? (fun p => p.Name == some kv.1) = some kv.2 := by
  intro names
  induction names with
  | nil => intro acc _ h1 h2; exact ⟨h1, h2⟩
  | cons nm names ih =>
    intro acc hsub h1 h2
    rw [List.foldl_cons]
    apply ih
    · intro x hx; exact hsub x (List.mem_cons_of_mem _ hx)
    · rcases hfind : all_stats_data.find? (fun p => p.Name == some (name_only nm)) with _ | stats
      · simpa only [stepStats, hfind] using h1
      · simp only [stepStats, hfind]
        exact nodup_keys_dictInsert h1
    · intro kv hkv
      rcases hfind : all_stats_data.find? (fun p => p.Name == some (name_only nm)) with _ | stats
      · simp only [stepStats, hfind] at hkv
        exact h2 kv hkv
      · simp only [stepStats, hfind] at hkv
        rcases mem_dictInsert hkv with h | h
        · subst h
          exact ⟨⟨nm, hsub nm (List.mem_cons_self _ _), rfl⟩, hfind⟩
        · exact h2 kv h

/-- Claim C9. For every selection and fetched statistics list, the keys of
the resolver's bundle are pairwise distinct bare names — each is the part of
some selected label before the first " (", never the full "Name (Team)"
label (so two selected labels sharing a bare name yield at most one entry) —
and every entry's value is the first record of the fetched list whose Name
field equals that bare name. -/
theorem get_player_stats_bare_name_keys (player_names : List String)
    (all_stats_data : List StatRecord) :
    ((get_player_stats_pure player_names all_stats_data).map Prod.fst).Nodup ∧
    ∀ kv ∈ get_player_stats_pure player_names all_stats_data,
      (∃ nm ∈ player_names, kv.1 = name_only nm) ∧
      all_stats_data.find? (fun p => p.Name == some kv.1) = some kv.2 :=
  get_player_stats_fold_inv all_stats_data player_names player_names []
    (fun _ h => h) (by simp) (by simp)

/-- Witness for `get_player_stats_bare_name_keys`: concrete selection of two
labels sharing the bare name "A"; the inner entry property is instantiated
at the single resulting entry. -/
theorem get_player_stats_bare_name_keys_witness :
    (((get_player_stats_pure ["A (X)", "A (Y)"] [⟨some "A", []⟩]).map Prod.fst).Nodup) ∧
    ((∃ nm ∈ ["A (X)", "A (Y)"], ("A", (⟨some "A", []⟩ : StatRecord)).1 = name_only nm) ∧
      ([⟨some "A", []⟩] : List StatRecord).find?
          (fun p => p.Name == some ("A", (⟨some "A", []⟩ : StatRecord)).1)
        = some ("A", (⟨some "A", []⟩ : StatRecord)).2) :=
  ⟨(get_player_stats_bare_name_keys ["A (X)", "A (Y)"] [⟨some "A", []⟩]).1,
   (get_player_stats_bare_name_keys ["A (X)", "A (Y)"] [⟨some "A", []⟩]).2
     ("A", ⟨some "A", []⟩) (by decide)⟩

/-- Claim C10. If the single bulk season-statistics request fails (any
request exception, including the HTTPError raised for a non-2xx response),
the resolver reports the user-visible error message and returns the empty
mapping for the whole batch — no selected player receives an entry. -/
theorem get_player_stats_bulk_failure (player_names : List String) (msg : String)
    (h : player_names ≠ []) :
    get_player_stats player_names (.err msg)
      = ([], ["Error fetching stats for players: " ++ msg]) := by
  cases player_names with
  | nil => exact absurd rfl h
  | cons a l => rfl

/-- Witness for `get_player_stats_bulk_failure` at a concrete selection. -/
theorem get_player_stats_bulk_failure_witness :
    get_player_stats ["A (X)"] (.err "Connection timed out")
      = ([], ["Error fetching stats for players: Connection timed out"]) :=
  get_player_stats_bulk_failure ["A (X)"] "Connection timed out" (by decide)

/-- Claim C6. For every failure of the roster fetch — an HTTP error (any
non-2xx status, e.g. 401) or a transport error — `get_player_list` returns
the empty list and reports a user-visible error message instead of raising:
the message carries the status code and URL when a response exists and is a
generic network error otherwise. -/
theorem get_player_list_failure_empty_and_reported (outcome : RosterFetchOutcome)
    (h : ∀ player_data, outcome ≠ .ok player_data) :
    (get_player_list outcome).1 = [] ∧
    (get_player_list outcome).2 ≠ [] ∧
    (∀ statusCode url, outcome = .httpErr statusCode url →
      (get_player_list outcome).2
        = ["HTTP Error: Status Code " ++ toString statusCode ++ " - URL: " ++ url]) ∧
    (∀ msg, outcome = .netErr msg →
      (get_player_list outcome).2 = ["Network Error: " ++ msg]) := by
  cases outcome with
  | ok player_data => exact absurd rfl (h player_data)
  | httpErr statusCode url =>
    refine ⟨rfl, by simp [get_player_list], ?_, ?_⟩
    · intro c u he
      cases he
      rfl
    · intro m hm
      cases hm
  | netErr msg =>
    refine ⟨rfl, by simp [get_player_list], ?_, ?_⟩
    · intro c u he
      cases he
    · intro m hm
      cases hm
      rfl

/-- Witness for `get_player_list_failure_empty_and_reported` at the HTTP 401
failure named by the spec. -/
theorem get_player_list_failure_witness :
    (get_player_list (.httpErr 401 "https://api.sportsdata.io/v3/nfl/scores/json/Players")).1
      = [] ∧
    (get_player_list (.httpErr 401 "https://api.sportsdata.io/v3/nfl/scores/json/Players")).2
      = ["HTTP Error: Status Code "
          ++ toString 401
          ++ " - URL: https://api.sportsdata.io/v3/nfl/scores/json/Players"] :=
  ⟨(get_player_list_failure_empty_and_reported
      (.httpErr 401 "https://api.sportsdata.io/v3/nfl/scores/json/Players")
      (fun _ hh => RosterFetchOutcome.noConfusion hh)).1,
   (get_player_list_failure_empty_and_reported
      (.httpErr 401 "https://api.sportsdata.io/v3/nfl/scores/json/Players")
      (fun _ hh => RosterFetchOutcome.noConfusion hh)).2.2.1 401
      "https://api.sportsdata.io/v3/nfl/scores/json/Players" rfl⟩

/-- The startup secrets check at the top of the app: the `try` block reads
`st.secrets['GEMINI_API_KEY']` and then `st.secrets['SPORTS_DATA_API_KEY']`;
a `KeyError` from either lookup reaches the handler, which shows the error
message and calls `st.stop()` (modelled as `Except.error`, halting before
any further processing).  With both keys present the block binds both keys
and the script proceeds (modelled as `Except.ok` of the pair). -/
def startup (secrets : String → Option String) : Except String (String × String) :=
  match secrets "GEMINI_API_KEY" with
  | none => .error "API keys not found. Please add them to your Streamlit secrets."
  | some geminiKey =>
    match secrets "SPORTS_DATA_API_KEY" with
    | none => .error "API keys not found. Please add them to your Streamlit secrets."
    | some sportsKey => .ok (geminiKey, sportsKey)

/-- Claim C8. If either of the two secret API keys is missing from the
secrets store, startup reports the error and halts before any further
processing; with both keys present, startup proceeds with the two keys. -/
theorem startup_halts_iff_key_missing (secrets : String → Option String) :
    ((secrets "GEMINI_API_KEY" = none ∨ secrets "SPORTS_DATA_API_KEY" = none) →
      startup secrets
        = .error "API keys not found. Please add them to your Streamlit secrets.") ∧
    (∀ geminiKey sportsKey,
      secrets "GEMINI_API_KEY" = some geminiKey →
      secrets "SPORTS_DATA_API_KEY" = some sportsKey →
      startup secrets = .ok (geminiKey, sportsKey)) := by
  constructor
  · intro h
    rcases h with h | h
    · simp [startup, h]
    · rcases hg : secrets "GEMINI_API_KEY" with _ | g <;> simp [startup, hg, h]
  · intro geminiKey sportsKey hg hk
    simp [startup, hg, hk]

/-- Witness for `startup_halts_iff_key_missing`: the empty secrets store
halts, and a store holding both keys proceeds. -/
theorem startup_halts_iff_key_missing_witness :
    (startup (fun _ => none)
      = .error "API keys not found. Please add them to your Streamlit secrets.") ∧
    (startup (fun key => if key = "GEMINI_API_KEY" then some "g"
        else if key = "SPORTS_DATA_API_KEY" then some "s" else none)
      = .ok ("g", "s")) :=
  ⟨(startup_halts_iff_key_missing (fun _ => none)).1 (Or.inl rfl),
   (startup_halts_iff_key_missing _).2 "g" "s" (by decide) (by decide)⟩

/-- String containment: `pat` occurs in `s` as a contiguous substring. -/
def strContains (pat s : String) : Prop := ∃ x y : String, s = x ++ (pat ++ y)

/-- The sixteen results-table column names the prompt requests, in the
specified order. -/
def reportColumns : List String :=
  ["Player Name", "Team", "Bye Week", "Projected Catches", "Projected Yards",
   "Projected Touchdowns", "% Time Behind", "Upside (1-10)",
   "% First Read Target Share (Season Projection)", "Likely Snap Count Percentage",
   "Overall Fantasy Football Value", "Fantasy Points", "Targets per route run",
   "Teams Offensive Plays/Count per game", "Yards per route run",
   "Red Zone Target share"]

/-- Comma-separated rendering of a list of column names, in order. -/
def commaJoin : List String → String
  | [] => ""
  | [c] => c
  | c :: cs => c ++ ", " ++ commaJoin cs

/-- The explicit half-PPR sort instruction of the prompt, with its point
values: .5 points per reception, 6 points per TD, 1 point per 10 yards. -/
def halfPPRSortInstruction : String :=
  "Sort the final table by highest possible fantasy points using a half-PPR scoring format (.5 points per reception, 6 points per TD, and 1 point per 10 yards)."

/-- The `prompt_text` expression composed before the Gemini call.  In the
Python source the expression has exactly three `+` operands — the leading
string literal (adjacent literals are concatenated by the parser), the
`", ".join(selected_players)` call, and the trailing literal merged with the
f-string that appends `json.dumps(detailed_stats)` — transcribed here with
the serialized statistics bundle passed in as `statsJson`. -/
def prompt_text (selected_players : List String) (statsJson : String) : String :=
  ("Act as a top-tier fantasy football analyst. I need a deep, data-driven analysis of a specific group of either tight ends or wide receivers for the remainder of the season. Your analysis must be based on the provided, up-to-date data. You are a subject matter expert and can use your training to find nuanced insights, but you must prioritize the provided data for all player context and projections. Here are the player names to analyze: "
      ++ String.intercalate ", " selected_players)
    ++ (".For each player, provide a qualitative, in-depth analysis that simulates their possible production and highlights their potential fantasy football value. Confirm the context of who they are and make sure they are on the right team based on most recent and reliable data sources.Evaluate each player based on the following criteria: * Their team\x27s overall offensive scheme and how it caters to their position. * The team\x27s quarterback situation and potential for consistent production (scale of 1-10).* The player\x27s role in the red zone and their touchdown-scoring potential.* Their usage as a blocker versus a receiver. * The percentage of time their team will likely play from behind, and how this impacts their target volume. Consider likely weather and facility factors.Finally, present all of the information in a single, comprehensive data table with the following columns in this exact order: Player Name, Team, Bye Week, Projected Catches, Projected Yards, Projected Touchdowns, % Time Behind, Upside (1-10), % First Read Target Share (Season Projection), Likely Snap Count Percentage, Overall Fantasy Football Value, Fantasy Points, Targets per route run, Teams Offensive Plays/Count per game, Yards per route run, Red Zone Target share. Sort the final table by highest possible fantasy points using a half-PPR scoring format (.5 points per reception, 6 points per TD, and 1 point per 10 yards).Definition Details: Always list the table column definitions out as the last text below the article. For all definitions except Player Name, Team, Bye Week, explain the details of what a high, med, and low measurement should be to move a player from a low, med, high end player in their position for measurement definition.Please provide a detailed analysis. Ensure all data points are meticulously vetted, cross-referenced with multiple reputable sources, and validated for accuracy. The predictive models must be clearly explained, detailing their underlying assumptions, limitations, and the specific metrics used for performance assessment. The final output must be logically coherent and provide a deep assessment of the given scenario, accounting for all relevant variables.\n\nHere is the raw, factual data for the analysis: "
      ++ statsJson)

/-- Claim C7. For every non-empty selection and non-empty serialized
statistics bundle, the composed prompt contains, as one contiguous
substring, all sixteen requested results-table column names in the specified
order (joined by ", "), and contains the explicit half-PPR sort instruction
with its point values (.5 points per reception, 6 points per TD, and 1
point per 10 yards). -/
theorem prompt_text_contains_columns_and_sort
    (selected_players : List String) (statsJson : String)
    (hsel : selected_players ≠ []) (hjson : statsJson ≠ "") :
    strContains (commaJoin reportColumns) (prompt_text selected_players statsJson) ∧
    strContains halfPPRSortInstruction (prompt_text selected_players statsJson) := by
  constructor
  · refine ⟨("Act as a top-tier fantasy football analyst. I need a deep, data-driven analysis of a specific group of either tight ends or wide receivers for the remainder of the season. Your analysis must be based on the provided, up-to-date data. You are a subject matter expert and can use your training to find nuanced insights, but you must prioritize the provided data for all player context and projections. Here are the player names to analyze: "
        ++ String.intercalate ", " selected_players)
      ++ ".For each player, provide a qualitative, in-depth analysis that simulates their possible production and highlights their potential fantasy football value. Confirm the context of who they are and make sure they are on the right team based on most recent and reliable data sources.Evaluate each player based on the following criteria: * Their team\x27s overall offensive scheme and how it caters to their position. * The team\x27s quarterback situation and potential for consistent production (scale of 1-10).* The player\x27s role in the red zone and their touchdown-scoring potential.* Their usage as a blocker versus a receiver. * The percentage of time their team will likely play from behind, and how this impacts their target volume. Consider likely weather and facility factors.Finally, present all of the information in a single, comprehensive data table with the following columns in this exact order: ",
      ". Sort the final table by highest possible fantasy points using a half-PPR scoring format (.5 points per reception, 6 points per TD, and 1 point per 10 yards).Definition Details: Always list the table column definitions out as the last text below the article. For all definitions except Player Name, Team, Bye Week, explain the details of what a high, med, and low measurement should be to move a player from a low, med, high end player in their position for measurement definition.Please provide a detailed analysis. Ensure all data points are meticulously vetted, cross-referenced with multiple reputable sources, and validated for accuracy. The predictive models must be clearly explained, detailing their underlying assumptions, limitations, and the specific metrics used for performance assessment. The final output must be logically coherent and provide a deep assessment of the given scenario, accounting for all relevant variables.\n\nHere is the raw, factual data for the analysis: "
        ++ statsJson, ?_⟩
    have hjoin : commaJoin reportColumns = "Player Name, Team, Bye Week, Projected Catches, Projected Yards, Projected Touchdowns, % Time Behind, Upside (1-10), % First Read Target Share (Season Projection), Likely Snap Count Percentage, Overall Fantasy Football Value, Fantasy Points, Targets per route run, Teams Offensive Plays/Count per game, Yards per route run, Red Zone Target share" := by simp [commaJoin, reportColumns]
    have hsplit : (".For each player, provide a qualitative, in-depth analysis that simulates their possible production and highlights their potential fantasy football value. Confirm the context of who they are and make sure they are on the right team based on most recent and reliable data sources.Evaluate each player based on the following criteria: * Their team\x27s overall offensive scheme and how it caters to their position. * The team\x27s quarterback situation and potential for consistent production (scale of 1-10).* The player\x27s role in the red zone and their touchdown-scoring potential.* Their usage as a blocker versus a receiver. * The percentage of time their team will likely play from behind, and how this impacts their target volume. Consider likely weather and facility factors.Finally, present all of the information in a single, comprehensive data table with the following columns in this exact order: Player Name, Team, Bye Week, Projected Catches, Projected Yards, Projected Touchdowns, % Time Behind, Upside (1-10), % First Read Target Share (Season Projection), Likely Snap Count Percentage, Overall Fantasy Football Value, Fantasy Points, Targets per route run, Teams Offensive Plays/Count per game, Yards per route run, Red Zone Target share. Sort the final table by highest possible fantasy points using a half-PPR scoring format (.5 points per reception, 6 points per TD, and 1 point per 10 yards).Definition Details: Always list the table column definitions out as the last text below the article. For all definitions except Player Name, Team, Bye Week, explain the details of what a high, med, and low measurement should be to move a player from a low, med, high end player in their position for measurement definition.Please provide a detailed analysis. Ensure all data points are meticulously vetted, cross-referenced with multiple reputable sources, and validated for accuracy. The predictive models must be clearly explained, detailing their underlying assumptions, limitations, and the specific metrics used for performance assessment. The final output must be logically coherent and provide a deep assessment of the given scenario, accounting for all relevant variables.\n\nHere is the raw, factual data for the analysis: " : String)
        = ".For each player, provide a qualitative, in-depth analysis that simulates their possible production and highlights their potential fantasy football value. Confirm the context of who they are and make sure they are on the right team based on most recent and reliable data sources.Evaluate each player based on the following criteria: * Their team\x27s overall offensive scheme and how it caters to their position. * The team\x27s quarterback situation and potential for consistent production (scale of 1-10).* The player\x27s role in the red zone and their touchdown-scoring potential.* Their usage as a blocker versus a receiver. * The percentage of time their team will likely play from behind, and how this impacts their target volume. Consider likely weather and facility factors.Finally, present all of the information in a single, comprehensive data table with the following columns in this exact order: "
          ++ (("Player Name, Team, Bye Week, Projected Catches, Projected Yards, Projected Touchdowns, % Time Behind, Upside (1-10), % First Read Target Share (Season Projection), Likely Snap Count Percentage, Overall Fantasy Football Value, Fantasy Points, Targets per route run, Teams Offensive Plays/Count per game, Yards per route run, Red Zone Target share" : String)
          ++ ". Sort the final table by highest possible fantasy points using a half-PPR scoring format (.5 points per reception, 6 points per TD, and 1 point per 10 yards).Definition Details: Always list the table column definitions out as the last text below the article. For all definitions except Player Name, Team, Bye Week, explain the details of what a high, med, and low measurement should be to move a player from a low, med, high end player in their position for measurement definition.Please provide a detailed analysis. Ensure all data points are meticulously vetted, cross-referenced with multiple reputable sources, and validated for accuracy. The predictive models must be clearly explained, detailing their underlying assumptions, limitations, and the specific metrics used for performance assessment. The final output must be logically coherent and provide a deep assessment of the given scenario, accounting for all relevant variables.\n\nHere is the raw, factual data for the analysis: ") := by simp
    rw [hjoin]
    unfold prompt_text
    rw [hsplit]
    simp only [String.append_assoc]
  · refine ⟨("Act as a top-tier fantasy football analyst. I need a deep, data-driven analysis of a specific group of either tight ends or wide receivers for the remainder of the season. Your analysis must be based on the provided, up-to-date data. You are a subject matter expert and can use your training to find nuanced insights, but you must prioritize the provided data for all player context and projections. Here are the player names to analyze: "
        ++ String.intercalate ", " selected_players)
      ++ ".For each player, provide a qualitative, in-depth analysis that simulates their possible production and highlights their potential fantasy football value. Confirm the context of who they are and make sure they are on the right team based on most recent and reliable data sources.Evaluate each player based on the following criteria: * Their team\x27s overall offensive scheme and how it caters to their position. * The team\x27s quarterback situation and potential for consistent production (scale of 1-10).* The player\x27s role in the red zone and their touchdown-scoring potential.* Their usage as a blocker versus a receiver. * The percentage of time their team will likely play from behind, and how this impacts their target volume. Consider likely weather and facility factors.Finally, present all of the information in a single, comprehensive data table with the following columns in this exact order: Player Name, Team, Bye Week, Projected Catches, Projected Yards, Projected Touchdowns, % Time Behind, Upside (1-10), % First Read Target Share (Season Projection), Likely Snap Count Percentage, Overall Fantasy Football Value, Fantasy Points, Targets per route run, Teams Offensive Plays/Count per game, Yards per route run, Red Zone Target share. ",
      "Definition Details: Always list the table column definitions out as the last text below the article. For all definitions except Player Name, Team, Bye Week, explain the details of what a high, med, and low measurement should be to move a player from a low, med, high end player in their position for measurement definition.Please provide a detailed analysis. Ensure all data points are meticulously vetted, cross-referenced with multiple reputable sources, and validated for accuracy. The predictive models must be clearly explained, detailing their underlying assumptions, limitations, and the specific metrics used for performance assessment. The final output must be logically coherent and provide a deep assessment of the given scenario, accounting for all relevant variables.\n\nHere is the raw, factual data for the analysis: "
        ++ statsJson, ?_⟩
    have hsplit : (".For each player, provide a qualitative, in-depth analysis that simulates their possible production and highlights their potential fantasy football value. Confirm the context of who they are and make sure they are on the right team based on most recent and reliable data sources.Evaluate each player based on the following criteria: * Their team\x27s overall offensive scheme and how it caters to their position. * The team\x27s quarterback situation and potential for consistent production (scale of 1-10).* The player\x27s role in the red zone and their touchdown-scoring potential.* Their usage as a blocker versus a receiver. * The percentage of time their team will likely play from behind, and how this impacts their target volume. Consider likely weather and facility factors.Finally, present all of the information in a single, comprehensive data table with the following columns in this exact order: Player Name, Team, Bye Week, Projected Catches, Projected Yards, Projected Touchdowns, % Time Behind, Upside (1-10), % First Read Target Share (Season Projection), Likely Snap Count Percentage, Overall Fantasy Football Value, Fantasy Points, Targets per route run, Teams Offensive Plays/Count per game, Yards per route run, Red Zone Target share. Sort the final table by highest possible fantasy points using a half-PPR scoring format (.5 points per reception, 6 points per TD, and 1 point per 10 yards).Definition Details: Always list the table column definitions out as the last text below the article. For all definitions except Player Name, Team, Bye Week, explain the details of what a high, med, and low measurement should be to move a player from a low, med, high end player in their position for measurement definition.Please provide a detailed analysis. Ensure all data points are meticulously vetted, cross-referenced with multiple reputable sources, and validated for accuracy. The predictive models must be clearly explained, detailing their underlying assumptions, limitations, and the specific metrics used for performance assessment. The final output must be logically coherent and provide a deep assessment of the given scenario, accounting for all relevant variables.\n\nHere is the raw, factual data for the analysis: " : String)
        = ".For each player, provide a qualitative, in-depth analysis that simulates their possible production and highlights their potential fantasy football value. Confirm the context of who they are and make sure they are on the right team based on most recent and reliable data sources.Evaluate each player based on the following criteria: * Their team\x27s overall offensive scheme and how it caters to their position. * The team\x27s quarterback situation and potential for consistent production (scale of 1-10).* The player\x27s role in the red zone and their touchdown-scoring potential.* Their usage as a blocker versus a receiver. * The percentage of time their team will likely play from behind, and how this impacts their target volume. Consider likely weather and facility factors.Finally, present all of the information in a single, comprehensive data table with the following columns in this exact order: Player Name, Team, Bye Week, Projected Catches, Projected Yards, Projected Touchdowns, % Time Behind, Upside (1-10), % First Read Target Share (Season Projection), Likely Snap Count Percentage, Overall Fantasy Football Value, Fantasy Points, Targets per route run, Teams Offensive Plays/Count per game, Yards per route run, Red Zone Target share. "
          ++ ((halfPPRSortInstruction : String)
          ++ "Definition Details: Always list the table column definitions out as the last text below the article. For all definitions except Player Name, Team, Bye Week, explain the details of what a high, med, and low measurement should be to move a player from a low, med, high end player in their position for measurement definition.Please provide a detailed analysis. Ensure all data points are meticulously vetted, cross-referenced with multiple reputable sources, and validated for accuracy. The predictive models must be clearly explained, detailing their underlying assumptions, limitations, and the specific metrics used for performance assessment. The final output must be logically coherent and provide a deep assessment of the given scenario, accounting for all relevant variables.\n\nHere is the raw, factual data for the analysis: ") := by simp [halfPPRSortInstruction]
    unfold prompt_text
    rw [hsplit]
    simp only [String.append_assoc]

/-- Witness for `prompt_text_contains_columns_and_sort` at a concrete
one-player selection and the empty-JSON-object bundle serialization. -/
theorem prompt_text_contains_columns_and_sort_witness :
    strContains (commaJoin reportColumns) (prompt_text ["A (X)"] "\x7b\x7d") ∧
    strContains halfPPRSortInstruction (prompt_text ["A (X)"] "\x7b\x7d") :=
  prompt_text_contains_columns_and_sort ["A (X)"] "\x7b\x7d" (by decide) (by decide)
